import Mathlib

/-!
Shallow embedding of the movie record store implemented in
`src/Backend_Project.py` (class `MovieDatabase`, SQLite-backed).

The SQLite table `movies` is modelled as a list of rows plus the
AUTOINCREMENT sequence counter; each Python method becomes a Lean
function threading the table state explicitly and returning the same
payload the method returns.  SQL statement semantics (INSERT with a
UNIQUE column, UPDATE/DELETE rowcounts, `LIKE`, `CAST(... AS REAL)`,
`AVG`, `ORDER BY id DESC`) are embedded following SQLite behaviour.
-/

namespace MovieDB

/-- A row of the `movies` table created by `initialize_database`:
`id INTEGER PRIMARY KEY AUTOINCREMENT`, then eight TEXT columns. -/
structure MovieRow where
  id : Nat
  movie_id : String
  movie_name : String
  release_date : String
  director : String
  cast : String
  budget : String
  duration : String
  rating : String
deriving DecidableEq, Repr

/-- The `movies` table: its rows (in rowid order) together with the
AUTOINCREMENT sequence (largest `id` ever assigned, so ids are never
reused). -/
structure MovieTable where
  rows : List MovieRow
  seq : Nat
deriving DecidableEq, Repr

/-- The caller-supplied fields of `add_movie` / `update_movie`
(everything except the surrogate `id`). -/
structure MovieInput where
  movie_id : String
  movie_name : String
  release_date : String
  director : String
  cast : String
  budget : String
  duration : String
  rating : String
deriving DecidableEq, Repr

/-- The whole database file: `none` when the `movies` table does not
exist yet, `some t` once it does. -/
def DBState : Type := Option MovieTable

/-- `initialize_database`: `CREATE TABLE IF NOT EXISTS movies (...)` —
creates an empty table when absent, leaves an existing table alone. -/
def initialize_database (s : DBState) : DBState :=
  match s with
  | none => some ⟨[], 0⟩
  | some t => some t

/-! ### SQLite expression semantics used by the queries -/

/-- Value of a list of decimal digit characters. -/
def digitsVal (ds : List Char) : Nat :=
  ds.foldl (fun a c => 10 * a + (c.toNat - 48)) 0

/-- Whitespace skipped by sqlite3AtoF before a numeric literal. -/
def isSpaceChar (c : Char) : Bool :=
  c = ' ' || c = '\t' || c = '\n' || c = '\x0b' || c = '\x0c' || c = '\r'

/-- Exponent digits after `e`/`E` and an optional sign: contributes `0`
unless at least one digit follows (then the prefix ends before the `e`). -/
def expDigits (sign : Int) (cs : List Char) : Int :=
  let ds := cs.takeWhile Char.isDigit
  if ds.isEmpty then 0 else sign * (digitsVal ds : Int)

/-- Exponent part after the mantissa, `e`/`E` then optional sign. -/
def expPart (cs : List Char) : Int :=
  match cs with
  | 'e' :: rest =>
    (match rest with
     | '+' :: r => expDigits 1 r
     | '-' :: r => expDigits (-1) r
     | _ => expDigits 1 rest)
  | 'E' :: rest =>
    (match rest with
     | '+' :: r => expDigits 1 r
     | '-' :: r => expDigits (-1) r
     | _ => expDigits 1 rest)
  | _ => 0

/-- The parts of the longest numeric prefix sqlite3AtoF reads: whether a
digit was found, the sign, the integer-part value, the fraction digits
value and count, and the exponent. -/
structure RealParse where
  ok : Bool
  sgn : Int
  ip : Nat
  fp : Nat
  fl : Nat
  ex : Int
deriving DecidableEq, Repr

/-- Reads the longest prefix of a text that is a real-number literal
(optional whitespace, sign, digits, fraction, exponent). -/
def parseReal (s : String) : RealParse :=
  let cs := s.data.dropWhile isSpaceChar
  let signCs : Int × List Char :=
    match cs with
    | '-' :: rest => (-1, rest)
    | '+' :: rest => (1, rest)
    | _ => (1, cs)
  let intDs := signCs.2.takeWhile Char.isDigit
  let cs2 := signCs.2.dropWhile Char.isDigit
  let fracCs : List Char × List Char :=
    match cs2 with
    | '.' :: rest => (rest.takeWhile Char.isDigit, rest.dropWhile Char.isDigit)
    | _ => ([], cs2)
  if intDs.isEmpty && fracCs.1.isEmpty then ⟨false, 1, 0, 0, 0, 0⟩
  else
    ⟨true, signCs.1, digitsVal intDs, digitsVal fracCs.1, fracCs.1.length, expPart fracCs.2⟩

/-- SQLite `CAST(txt AS REAL)`: the longest prefix of the text that reads
as a real number is converted; a text with no such prefix converts to
`0.0`. -/
def castAsReal (s : String) : ℚ :=
  let pr := parseReal s
  if !pr.ok then 0
  else
    let mant : ℚ := (pr.sgn : ℚ) * ((pr.ip : ℚ) + (pr.fp : ℚ) / 10 ^ pr.fl)
    if 0 ≤ pr.ex then mant * 10 ^ pr.ex.toNat else mant / 10 ^ (-pr.ex).toNat

/-- SQLite default `LIKE` folding: ASCII letters compare case-insensitively. -/
def foldChar (c : Char) : Char :=
  if 'A' ≤ c ∧ c ≤ 'Z' then Char.ofNat (c.toNat + 32) else c

/-- SQLite `LIKE` matching of a pattern against a text: `%` matches any
(possibly empty) run, `_` matches one character, anything else matches
itself up to ASCII case folding.  Every step consumes pattern or text,
so the fuel `p.length + s.length + 1` given by `likeMatch` never runs
out. -/
def likeMatchF : Nat → List Char → List Char → Bool
  | 0, _, _ => false
  | fuel + 1, p, s =>
    match p, s with
    | [], [] => true
    | '%' :: ps, [] => likeMatchF fuel ps []
    | _ :: _, [] => false
    | [], _ :: _ => false
    | '%' :: ps, c :: cs => likeMatchF fuel ps (c :: cs) || likeMatchF fuel ('%' :: ps) cs
    | '_' :: ps, _ :: cs => likeMatchF fuel ps cs
    | q :: ps, c :: cs => (foldChar q = foldChar c : Bool) && likeMatchF fuel ps cs

/-- `LIKE` pattern matching with enough fuel for the whole match. -/
def likeMatch (p : List Char) (s : List Char) : Bool :=
  likeMatchF (p.length + s.length + 1) p s

/-- The condition `column LIKE ?` with parameter `%value%` built by
`search_movies` for one non-empty filter value. -/
def likeCond (field : String) (value : String) : Bool :=
  likeMatch ('%' :: (value.data ++ ['%'])) field.data

/-- The declared column names of the `movies` table. -/
def validColumn (key : String) : Bool :=
  key = "id" || key = "movie_id" || key = "movie_name" || key = "release_date" ||
  key = "director" || key = "cast" || key = "budget" || key = "duration" || key = "rating"

/-- SQLite compares identifiers with ASCII case folding. -/
def foldName (s : String) : String := ⟨s.data.map foldChar⟩

/-- The implicit names `rowid`, `oid` and `_rowid_` all refer to the
rowid, which the declaration `id INTEGER PRIMARY KEY` makes an alias of
the `id` column of this table. -/
def isRowidAlias (key : String) : Bool :=
  foldName key = "rowid" || foldName key = "oid" || foldName key = "_rowid_"

/-- Whether a filter key names a column the query can reference: the
declared columns matched case-insensitively, or a rowid alias.  A key
resolving to no column makes the dynamically built query fail to
prepare. -/
def resolvesColumn (key : String) : Bool :=
  validColumn (foldName key) || isRowidAlias key

/-- Text value of the column a key resolves to, as `LIKE` sees it (the
INTEGER `id`, also reached through the rowid aliases, is coerced to its
decimal text). -/
def getColumn (r : MovieRow) (key : String) : String :=
  if foldName key = "id" || isRowidAlias key then toString r.id
  else if foldName key = "movie_id" then r.movie_id
  else if foldName key = "movie_name" then r.movie_name
  else if foldName key = "release_date" then r.release_date
  else if foldName key = "director" then r.director
  else if foldName key = "cast" then r.cast
  else if foldName key = "budget" then r.budget
  else if foldName key = "duration" then r.duration
  else r.rating

/-! ### The operations of `MovieDatabase`

Each returns the table state after the call together with the value the
Python method returns, so read-only behaviour is a statement, not a
convention. -/

/-- `add_movie`: validation, then
`INSERT INTO movies (movie_id, movie_name, ...) VALUES (?,...)`;
the UNIQUE constraint on `movie_id` turns a collision into
`sqlite3.IntegrityError`, caught and reported; AUTOINCREMENT assigns
one more than the largest id ever used. -/
def add_movie (t : MovieTable) (inp : MovieInput) : MovieTable × Bool × String :=
  if inp.movie_id = "" ∨ inp.movie_name = "" then
    (t, false, "Movie ID and Movie Name are required!")
  else if t.rows.any (fun r => r.movie_id == inp.movie_id) then
    (t, false, "Movie ID '" ++ inp.movie_id ++ "' already exists!")
  else
    (⟨t.rows ++ [⟨t.seq + 1, inp.movie_id, inp.movie_name, inp.release_date, inp.director,
                 inp.cast, inp.budget, inp.duration, inp.rating⟩], t.seq + 1⟩,
     true, "Movie added successfully!")

/-- Ordering used by `ORDER BY id DESC`. -/
def idDesc (a b : MovieRow) : Prop := b.id ≤ a.id

instance : DecidableRel idDesc := fun a b => Nat.decLe b.id a.id

instance : IsTotal MovieRow idDesc := ⟨fun a b => Nat.le_total b.id a.id⟩

instance : IsTrans MovieRow idDesc := ⟨fun _ _ _ h1 h2 => Nat.le_trans h2 h1⟩

/-- `view_all_movies`: `SELECT * FROM movies ORDER BY id DESC`. -/
def view_all_movies (t : MovieTable) : MovieTable × List MovieRow :=
  (t, t.rows.insertionSort idDesc)

/-- `search_movies`: builds `key LIKE ?` conditions for the non-empty
keyword values, joins them with `OR`; with no condition it delegates to
`view_all_movies`; a key resolving to no column of the table makes the
query raise `sqlite3.Error`, caught and reported as `[]`. -/
def search_movies (t : MovieTable) (kwargs : List (String × String)) :
    MovieTable × List MovieRow :=
  let conditions := kwargs.filter (fun kv => !(kv.2 == ""))
  if conditions.isEmpty then view_all_movies t
  else if conditions.any (fun kv => !resolvesColumn kv.1) then (t, [])
  else (t, t.rows.filter (fun r => conditions.any (fun kv => likeCond (getColumn r kv.1) kv.2)))

/-- `update_movie`: validation, then
`UPDATE movies SET ... WHERE id=?`; a `movie_id` collision with another
row raises `sqlite3.IntegrityError` and aborts the statement; a zero
rowcount reports not-found. -/
def update_movie (t : MovieTable) (record_id : Nat) (inp : MovieInput) :
    MovieTable × Bool × String :=
  if inp.movie_id = "" ∨ inp.movie_name = "" then
    (t, false, "Movie ID and Movie Name are required!")
  else
    match t.rows.find? (fun r => r.id == record_id) with
    | none => (t, false, "No record found to update!")
    | some _ =>
      if t.rows.any (fun r => !(r.id == record_id) && r.movie_id == inp.movie_id) then
        (t, false, "Movie ID '" ++ inp.movie_id ++ "' already exists!")
      else
        (⟨t.rows.map (fun r =>
            if r.id = record_id then
              { r with movie_id := inp.movie_id, movie_name := inp.movie_name,
                       release_date := inp.release_date, director := inp.director,
                       cast := inp.cast, budget := inp.budget,
                       duration := inp.duration, rating := inp.rating }
            else r), t.seq⟩,
         true, "Movie updated successfully!")

/-- `delete_movie`: `DELETE FROM movies WHERE id=?`; a zero rowcount
reports not-found. -/
def delete_movie (t : MovieTable) (record_id : Nat) : MovieTable × Bool × String :=
  let remaining := t.rows.filter (fun r => !(r.id == record_id))
  if t.rows.length - remaining.length = 0 then
    (t, false, "No record found to delete!")
  else
    (⟨remaining, t.seq⟩, true, "Movie deleted successfully!")

/-- `get_movie_by_id`: `SELECT * FROM movies WHERE id=?`, first row or
`None`. -/
def get_movie_by_id (t : MovieTable) (record_id : Nat) : MovieTable × Option MovieRow :=
  (t, t.rows.find? (fun r => r.id == record_id))

/-- Python `round(x, 2)` (round half to even) on an exact rational. -/
def roundHalfEven (q : ℚ) : ℤ :=
  let f : ℤ := q.num.fdiv (q.den : ℤ)
  let r : ℚ := q - (f : ℚ)
  if r < 1 / 2 then f
  else if 1 / 2 < r then f + 1
  else if f % 2 = 0 then f else f + 1

/-- Rounding to two decimal places as `round(avg_rating, 2)` does. -/
def round2 (q : ℚ) : ℚ := (roundHalfEven (q * 100) : ℚ) / 100

/-- `get_statistics`: `SELECT COUNT(*) FROM movies` and
`SELECT AVG(CAST(rating AS REAL)) FROM movies WHERE rating != ''`
(`AVG` is `NULL` on no rows), then
`round(avg_rating, 2) if avg_rating else 0`. -/
def get_statistics (t : MovieTable) : MovieTable × Nat × ℚ :=
  let total := t.rows.length
  let rated := t.rows.filter (fun r => !(r.rating == ""))
  let avg : Option ℚ :=
    if rated.isEmpty then none
    else some ((rated.map (fun r => castAsReal r.rating)).sum / (rated.length : ℚ))
  match avg with
  | none => (t, total, 0)
  | some a => (t, total, if a = 0 then 0 else round2 a)

/-- The statistics contract over the stored `rating` texts alone: count
of all records; the average of `CAST(... AS REAL)` over the non-empty
ratings, rounded to two decimals, with `0` when no rating is non-empty
or the mean itself is `0`. -/
def statsOfRatings (ratings : List String) : Nat × ℚ :=
  let kept := ratings.filter (fun s => !(s == ""))
  let mean : ℚ := (kept.map castAsReal).sum / (kept.length : ℚ)
  (ratings.length, if kept.isEmpty ∨ mean = 0 then 0 else round2 mean)

/-! ### Concrete fixtures used by witnesses and counterexamples -/

def exR1 : MovieRow := ⟨1, "M1", "Inception", "", "", "", "", "", "4"⟩

def exR2 : MovieRow := ⟨2, "M2", "Arrival", "", "", "", "", "", ""⟩

def exR3 : MovieRow := ⟨3, "M3", "Heat", "", "", "", "", "", "2"⟩

def exR4 : MovieRow := ⟨4, "M4", "Dune", "", "", "", "", "", "abc"⟩

/-- Four records whose ratings are `"4"`, `""`, `"2"`, `"abc"`. -/
def statsEx : MovieTable := ⟨[exR1, exR2, exR3, exR4], 4⟩

def caseRow : MovieRow := ⟨1, "M1", "ABC", "", "", "", "", "", ""⟩

def caseTable : MovieTable := ⟨[caseRow], 1⟩

def wsInput : MovieInput := ⟨" ", "Whitespace", "", "", "", "", "", ""⟩

def blankIdInput : MovieInput := ⟨"", "NoId", "", "", "", "", "", ""⟩

def plainInput : MovieInput := ⟨"M9", "Nine", "", "", "", "", "", ""⟩

/-! ### The claims -/

/-- C8: `initialize_database` is idempotent — it creates the empty
schema when the store is absent, returns an already-initialized store
unchanged (no stored record is altered), and running it twice equals
running it once. -/
theorem initialize_idempotent :
    ∀ (s : DBState) (t : MovieTable),
      initialize_database (initialize_database s) = initialize_database s ∧
      initialize_database (some t) = some t ∧
      initialize_database none = some ⟨[], 0⟩ := by
  intro s t
  refine ⟨?_, rfl, rfl⟩
  cases s <;> rfl

/-- C10: the read operations `view_all_movies`, `search_movies`,
`get_movie_by_id` and `get_statistics` never modify the store: for every
starting state and every argument the table after the call equals the
table before it. -/
theorem reads_preserve_store :
    ∀ (t : MovieTable) (kwargs : List (String × String)) (record_id : Nat),
      (view_all_movies t).1 = t ∧
      (search_movies t kwargs).1 = t ∧
      (get_movie_by_id t record_id).1 = t ∧
      (get_statistics t).1 = t := by
  intro t kwargs record_id
  refine ⟨rfl, ?_, rfl, ?_⟩
  · simp only [search_movies]
    split
    · rfl
    · split <;> rfl
  · simp only [get_statistics]
    split <;> rfl

/-- C7: `view_all_movies` returns every stored record exactly once (a
permutation of the rows), ordered by surrogate id descending; on an
empty store it returns the empty list; and each successful add grows the
listing by exactly one record, so after N adds from empty it has N
records. -/
theorem view_all_ordered :
    ∀ t : MovieTable,
      (view_all_movies t).2.Perm t.rows ∧
      List.Sorted idDesc (view_all_movies t).2 ∧
      (view_all_movies t).2.length = t.rows.length ∧
      (t.rows = [] → (view_all_movies t).2 = []) ∧
      (∀ inp, (add_movie t inp).2.1 = true →
        (view_all_movies (add_movie t inp).1).2.length =
          (view_all_movies t).2.length + 1) := by
  intro t
  have hperm := List.perm_insertionSort idDesc t.rows
  refine ⟨hperm, List.sorted_insertionSort idDesc t.rows, hperm.length_eq, ?_, ?_⟩
  · intro h
    rw [view_all_movies, h]
    rfl
  · intro inp hsucc
    by_cases hval : inp.movie_id = "" ∨ inp.movie_name = ""
    · exfalso
      simp [add_movie, if_pos hval] at hsucc
    by_cases hdup : t.rows.any (fun r => r.movie_id == inp.movie_id) = true
    · exfalso
      simp [add_movie, if_neg hval, hdup] at hsucc
    · simp only [add_movie, if_neg hval, hdup, if_neg Bool.false_ne_true, view_all_movies]
      rw [(List.perm_insertionSort idDesc _).length_eq,
          (List.perm_insertionSort idDesc _).length_eq]
      simp

/-- C7 witness: a successful add on the four-record fixture grows the
listing by exactly one record. -/
theorem view_all_ordered_witness :
    (view_all_movies (add_movie statsEx plainInput).1).2.length =
      (view_all_movies statsEx).2.length + 1 :=
  (view_all_ordered statsEx).2.2.2.2 plainInput (by decide)

/-- C2 is false as stated: a whitespace-only `movie_id` passes the
validation `if not movie_id or not movie_name` (only the empty string is
falsy), so `add_movie` succeeds and writes a record whose `movie_id` is
a single space. -/
theorem whitespace_validation_counterexample :
    (add_movie ⟨[], 0⟩ wsInput).2.1 = true ∧
    (add_movie ⟨[], 0⟩ wsInput).1.rows ≠ [] := by decide

/-- C2 (amended): for every input whose `movie_id` or `movie_name` is
the empty string, `add_movie` and `update_movie` fail with the
validation message and perform no write (the table is unchanged);
whitespace-only values are not rejected by the validation. -/
theorem empty_validation_amended :
    ∀ (t : MovieTable) (record_id : Nat) (inp : MovieInput),
      inp.movie_id = "" ∨ inp.movie_name = "" →
      add_movie t inp = (t, false, "Movie ID and Movie Name are required!") ∧
      update_movie t record_id inp = (t, false, "Movie ID and Movie Name are required!") := by
  intro t record_id inp h
  constructor
  · simp only [add_movie, if_pos h]
  · simp only [update_movie, if_pos h]

/-- C2 witness: the amended validation behaviour at a concrete input
with an empty `movie_id`. -/
theorem empty_validation_witness :
    add_movie ⟨[], 0⟩ blankIdInput = (⟨[], 0⟩, false, "Movie ID and Movie Name are required!") ∧
    update_movie ⟨[], 0⟩ 1 blankIdInput =
      (⟨[], 0⟩, false, "Movie ID and Movie Name are required!") :=
  empty_validation_amended ⟨[], 0⟩ 1 blankIdInput (Or.inl rfl)

/-- C5: for every id held by no stored record, `update_movie` (with
otherwise valid fields, so that validation does not fire first) and
`delete_movie` fail with the not-found message and leave the table
unchanged. -/
theorem not_found_spec :
    ∀ (t : MovieTable) (record_id : Nat) (inp : MovieInput),
      (∀ r ∈ t.rows, r.id ≠ record_id) →
      inp.movie_id ≠ "" → inp.movie_name ≠ "" →
      update_movie t record_id inp = (t, false, "No record found to update!") ∧
      delete_movie t record_id = (t, false, "No record found to delete!") := by
  intro t record_id inp habs h1 h2
  have hval : ¬(inp.movie_id = "" ∨ inp.movie_name = "") := by tauto
  constructor
  · have hfind : t.rows.find? (fun r => r.id == record_id) = none := by
      rw [List.find?_eq_none]
      intro r hr
      simpa using habs r hr
    simp only [update_movie, if_neg hval, hfind]
  · have hfilter : t.rows.filter (fun r => !(r.id == record_id)) = t.rows := by
      rw [List.filter_eq_self]
      intro r hr
      simpa using habs r hr
    simp [delete_movie, hfilter]

/-- C5 witness: update and delete addressed to the unused id 9 on the
four-record fixture. -/
theorem not_found_witness :
    update_movie statsEx 9 plainInput = (statsEx, false, "No record found to update!") ∧
    delete_movie statsEx 9 = (statsEx, false, "No record found to delete!") :=
  not_found_spec statsEx 9 plainInput (by decide) (by decide) (by decide)

/-- C4: adding a record whose `movie_id` is already stored fails with
the duplicate-key message and leaves the table (hence its record count)
unchanged; updating a record to the `movie_id` of a different existing
record fails the same way; updating a record keeping its own `movie_id`
succeeds (given the store's `movie_id`-uniqueness invariant). -/
theorem duplicate_key_spec :
    ∀ (t : MovieTable) (record_id : Nat) (inp : MovieInput),
      inp.movie_id ≠ "" → inp.movie_name ≠ "" →
      ((∃ r ∈ t.rows, r.movie_id = inp.movie_id) →
        add_movie t inp = (t, false, "Movie ID '" ++ inp.movie_id ++ "' already exists!")) ∧
      ((∃ r ∈ t.rows, r.id = record_id) →
        (∃ r ∈ t.rows, r.id ≠ record_id ∧ r.movie_id = inp.movie_id) →
        update_movie t record_id inp =
          (t, false, "Movie ID '" ++ inp.movie_id ++ "' already exists!")) ∧
      (∀ r ∈ t.rows, r.id = record_id → inp.movie_id = r.movie_id →
        t.rows.Pairwise (fun a b => a.movie_id ≠ b.movie_id) →
        (update_movie t record_id inp).2.1 = true) := by
  intro t record_id inp h1 h2
  have hval : ¬(inp.movie_id = "" ∨ inp.movie_name = "") := by tauto
  refine ⟨?_, ?_, ?_⟩
  · intro hdup
    obtain ⟨r, hr, he⟩ := hdup
    have hany : t.rows.any (fun r => r.movie_id == inp.movie_id) = true :=
      List.any_eq_true.mpr ⟨r, hr, by simp [he]⟩
    simp only [add_movie, if_neg hval, hany, if_pos]
  · intro hex hdup
    obtain ⟨r0, hr0, hid0⟩ := hex
    have hsome : (t.rows.find? (fun r => r.id == record_id)).isSome :=
      List.find?_isSome.mpr ⟨r0, hr0, by simp [hid0]⟩
    obtain ⟨rf, hfind⟩ := Option.isSome_iff_exists.mp hsome
    obtain ⟨r, hr, hne, he⟩ := hdup
    have hany : t.rows.any
        (fun r => !(r.id == record_id) && r.movie_id == inp.movie_id) = true :=
      List.any_eq_true.mpr ⟨r, hr, by simp [hne, he]⟩
    simp only [update_movie, if_neg hval, hfind, hany, if_pos]
  · intro r hr hid hsame hpw
    have hsome : (t.rows.find? (fun x => x.id == record_id)).isSome :=
      List.find?_isSome.mpr ⟨r, hr, by simp [hid]⟩
    obtain ⟨rf, hfind⟩ := Option.isSome_iff_exists.mp hsome
    have hany : t.rows.any
        (fun x => !(x.id == record_id) && x.movie_id == inp.movie_id) = false := by
      rw [List.any_eq_false]
      intro x hx
      simp only [Bool.and_eq_true, Bool.not_eq_eq_eq_not, Bool.not_true, beq_eq_false_iff_ne,
        beq_iff_eq, not_and]
      intro hxid hxmid
      have hxr : x ≠ r := fun hcontra => hxid (hcontra ▸ hid)
      have : x.movie_id ≠ r.movie_id := by
        have hsymm : Symmetric (fun a b : MovieRow => a.movie_id ≠ b.movie_id) :=
          fun a b hab => fun hba => hab hba.symm
        exact hpw.forall hsymm hx hr hxr
      exact this (hxmid.trans hsame)
    simp only [update_movie, if_neg hval, hfind, hany, Bool.false_eq_true, if_neg,
      not_false_iff]

/-- C4 witness: on the four-record fixture, adding a second `M1` fails
with the duplicate message, re-keying record 3 to `M1` fails the same
way, and updating record 3 keeping `M3` succeeds. -/
theorem duplicate_key_witness :
    add_movie statsEx ⟨"M1", "X", "", "", "", "", "", ""⟩ =
      (statsEx, false, "Movie ID '" ++ "M1" ++ "' already exists!") ∧
    update_movie statsEx 3 ⟨"M1", "X", "", "", "", "", "", ""⟩ =
      (statsEx, false, "Movie ID '" ++ "M1" ++ "' already exists!") ∧
    (update_movie statsEx 3 ⟨"M3", "X", "", "", "", "", "", ""⟩).2.1 = true :=
  ⟨(duplicate_key_spec statsEx 3 ⟨"M1", "X", "", "", "", "", "", ""⟩ (by decide) (by decide)).1
      ⟨exR1, by decide, by decide⟩,
   (duplicate_key_spec statsEx 3 ⟨"M1", "X", "", "", "", "", "", ""⟩ (by decide) (by decide)).2.1
      ⟨exR3, by decide, by decide⟩ ⟨exR1, by decide, by decide, by decide⟩,
   (duplicate_key_spec statsEx 3 ⟨"M3", "X", "", "", "", "", "", ""⟩ (by decide) (by decide)).2.2
      exR3 (by decide) (by decide) (by decide) (by decide)⟩

/-- C6: a valid add (non-empty names, fresh `movie_id`) succeeds; the
assigned surrogate id `seq + 1` is new (held by no prior record, given
the AUTOINCREMENT invariant that stored ids never exceed `seq`), and
`get_movie_by_id` on it returns exactly the inserted fields. -/
theorem add_roundtrip :
    ∀ (t : MovieTable) (inp : MovieInput),
      inp.movie_id ≠ "" → inp.movie_name ≠ "" →
      (∀ r ∈ t.rows, r.movie_id ≠ inp.movie_id) →
      (∀ r ∈ t.rows, r.id ≤ t.seq) →
      (add_movie t inp).2.1 = true ∧
      (∀ r ∈ t.rows, r.id ≠ t.seq + 1) ∧
      (get_movie_by_id (add_movie t inp).1 (t.seq + 1)).2 =
        some ⟨t.seq + 1, inp.movie_id, inp.movie_name, inp.release_date, inp.director,
              inp.cast, inp.budget, inp.duration, inp.rating⟩ := by
  intro t inp h1 h2 hnodup hseq
  have hval : ¬(inp.movie_id = "" ∨ inp.movie_name = "") := by tauto
  have hany : t.rows.any (fun r => r.movie_id == inp.movie_id) = false := by
    rw [List.any_eq_false]
    intro r hr
    simpa using hnodup r hr
  refine ⟨?_, ?_, ?_⟩
  · simp [add_movie, if_neg hval, hany]
  · intro r hr
    have := hseq r hr
    omega
  · have hnone : t.rows.find? (fun r => r.id == t.seq + 1) = none := by
      rw [List.find?_eq_none]
      intro r hr
      have := hseq r hr
      simp only [beq_iff_eq]
      omega
    simp only [add_movie, if_neg hval, hany, Bool.false_eq_true, if_neg, not_false_iff,
      get_movie_by_id, List.find?_append, hnone, Option.none_or]
    simp [List.find?]

/-- C6 witness: adding `M9` to the four-record fixture assigns id 5 and
`get_movie_by_id 5` returns the inserted record. -/
theorem add_roundtrip_witness :
    (add_movie statsEx plainInput).2.1 = true ∧
    (get_movie_by_id (add_movie statsEx plainInput).1 5).2 =
      some ⟨5, plainInput.movie_id, plainInput.movie_name, plainInput.release_date,
            plainInput.director, plainInput.cast, plainInput.budget, plainInput.duration,
            plainInput.rating⟩ :=
  ⟨(add_roundtrip statsEx plainInput (by decide) (by decide) (by decide) (by decide)).1,
   (add_roundtrip statsEx plainInput (by decide) (by decide) (by decide) (by decide)).2.2⟩

/-- C3 is false as stated: SQLite `LIKE` compares ASCII letters
case-insensitively, so searching `movie_name` for `"abc"` returns the
record named `"ABC"` although `"abc"` does not occur as a substring of
`"ABC"`. -/
theorem search_substring_counterexample :
    caseRow ∈ (search_movies caseTable [("movie_name", "abc")]).2 ∧
    ¬ "abc".data <:+: "ABC".data := by decide

/-- A key that is exactly a declared column name resolves to a column. -/
theorem validColumn_resolves (key : String) :
    validColumn key = true → resolvesColumn key = true := by
  intro h
  simp only [validColumn, Bool.or_eq_true, decide_eq_true_eq] at h
  rcases h with ((((((((h | h) | h) | h) | h) | h) | h) | h) | h) <;> subst h <;> decide

/-- C3 (amended): over valid column keys, `search_movies` returns
exactly the stored records for which at least one supplied non-empty
filter value `LIKE`-matches the corresponding field (`%value%`:
case-insensitive containment with `%`/`_` acting as wildcards), the
active predicates combined with logical OR; and when every filter value
is empty it behaves identically to `view_all_movies`. -/
theorem search_or_semantics :
    ∀ (t : MovieTable) (kwargs : List (String × String)),
      (∀ kv ∈ kwargs, validColumn kv.1 = true) →
      ((∀ kv ∈ kwargs, kv.2 = "") → search_movies t kwargs = view_all_movies t) ∧
      ((∃ kv ∈ kwargs, kv.2 ≠ "") → ∀ r : MovieRow,
        r ∈ (search_movies t kwargs).2 ↔
          r ∈ t.rows ∧ ∃ kv ∈ kwargs, kv.2 ≠ "" ∧
            likeCond (getColumn r kv.1) kv.2 = true) := by
  intro t kwargs hvalid
  constructor
  · intro hall
    have hnil : kwargs.filter (fun kv => !(kv.2 == "")) = [] := by
      rw [List.filter_eq_nil_iff]
      intro kv hkv
      simp [hall kv hkv]
    simp only [search_movies, hnil, List.isEmpty_nil, if_pos]
  · intro hex r
    obtain ⟨kv0, hkv0, hne0⟩ := hex
    have hkv0f : kv0 ∈ kwargs.filter (fun kv => !(kv.2 == "")) :=
      List.mem_filter.mpr ⟨hkv0, by simpa using hne0⟩
    have hne2 : (kwargs.filter (fun kv => !(kv.2 == ""))).isEmpty ≠ true := by
      simpa [List.isEmpty_iff] using List.ne_nil_of_mem hkv0f
    have hanyv : (kwargs.filter (fun kv => !(kv.2 == ""))).any
        (fun kv => !resolvesColumn kv.1) = false := by
      rw [List.any_eq_false]
      intro kv hkvf
      have := validColumn_resolves kv.1 (hvalid kv (List.mem_filter.mp hkvf).1)
      simp [this]
    simp only [search_movies, if_neg hne2, hanyv, Bool.false_eq_true, if_neg,
      not_false_iff, List.mem_filter]
    refine and_congr_right fun _ => ?_
    rw [List.any_eq_true]
    constructor
    · rintro ⟨kv, hkvf, hlike⟩
      have hm := List.mem_filter.mp hkvf
      exact ⟨kv, hm.1, by simpa using hm.2, hlike⟩
    · rintro ⟨kv, hkvm, hkne, hlike⟩
      exact ⟨kv, List.mem_filter.mpr ⟨hkvm, by simpa using hkne⟩, hlike⟩

/-- C3 witness: the amended OR/LIKE characterization instantiated on
the one-record fixture with two filters, one matching. -/
theorem search_or_witness :
    caseRow ∈ (search_movies caseTable [("movie_name", "b"), ("director", "zz")]).2 ↔
      caseRow ∈ caseTable.rows ∧
        ∃ kv ∈ [("movie_name", "b"), ("director", "zz")], kv.2 ≠ "" ∧
          likeCond (getColumn caseRow kv.1) kv.2 = true :=
  (search_or_semantics caseTable [("movie_name", "b"), ("director", "zz")]
    (by decide)).2 (by decide) caseRow

/-- SQLite casts the text `"4"` to the real number 4. -/
theorem castAsReal_four : castAsReal "4" = 4 := by
  have hp : parseReal "4" = ⟨true, 1, 4, 0, 0, 0⟩ := by decide
  simp [castAsReal, hp]

/-- SQLite casts the text `"2"` to the real number 2. -/
theorem castAsReal_two : castAsReal "2" = 2 := by
  have hp : parseReal "2" = ⟨true, 1, 2, 0, 0, 0⟩ := by decide
  simp [castAsReal, hp]

/-- SQLite casts the non-numeric text `"abc"` to `0.0`, not NULL. -/
theorem castAsReal_abc : castAsReal "abc" = 0 := by
  have hp : parseReal "abc" = ⟨false, 1, 0, 0, 0, 0⟩ := by decide
  simp [castAsReal, hp]

/-- Statistics over the fixture with ratings `"4"`, `""`, `"2"`,
`"abc"`: count 4 and average `(4 + 2 + 0) / 3 = 2`. -/
theorem statsEx_eval : (get_statistics statsEx).2 = (4, 2) := by
  have hrated : statsEx.rows.filter (fun r => !(r.rating == "")) = [exR1, exR3, exR4] := by
    decide
  simp only [get_statistics, hrated]
  simp [statsEx, exR1, exR3, exR4, castAsReal_four, castAsReal_two, castAsReal_abc]
  norm_num [round2, roundHalfEven, Rat.num_ofNat, Rat.den_ofNat, Int.fdiv_one]

/-- C1 is false as stated: `CAST('abc' AS REAL)` is `0.0` in SQLite, so
a non-empty non-numeric rating is averaged in as zero instead of being
excluded; over ratings `"4"`, `""`, `"2"`, `"abc"` the code reports
average 2, not the claimed 3. -/
theorem statistics_counterexample : (get_statistics statsEx).2.2 ≠ 3 := by
  rw [statsEx_eval]
  norm_num

/-- C1 (amended): `get_statistics` returns the total record count, and
the two-decimal rounding of the mean of `CAST(rating AS REAL)` over the
records whose rating is non-empty — a non-numeric rating enters that
mean as its numeric prefix (0 when it has none) rather than being
excluded — with `0` reported when no record has a non-empty rating or
when the mean is `0`; over ratings `"4"`, `""`, `"2"`, `"abc"` it
returns count 4 and average 2. -/
theorem statistics_amended :
    ∀ t : MovieTable,
      (get_statistics t).2 = statsOfRatings (t.rows.map (fun r => r.rating)) ∧
      (get_statistics statsEx).2 = (4, 2) := by
  intro t
  refine ⟨?_, statsEx_eval⟩
  have hkept : (t.rows.map (fun r => r.rating)).filter (fun s => !(s == "")) =
      (t.rows.filter (fun r => !(r.rating == ""))).map (fun r => r.rating) := by
    rw [List.filter_map]
    rfl
  have hmap2 : ((t.rows.filter (fun r => !(r.rating == ""))).map (fun r => r.rating)).map
        castAsReal =
      (t.rows.filter (fun r => !(r.rating == ""))).map (fun r => castAsReal r.rating) := by
    rw [List.map_map]
    rfl
  have hie : ((t.rows.filter (fun r => !(r.rating == ""))).map (fun r => r.rating)).isEmpty =
      (t.rows.filter (fun r => !(r.rating == ""))).isEmpty := by
    cases t.rows.filter (fun r => !(r.rating == "")) <;> rfl
  simp only [get_statistics, statsOfRatings, hkept, hmap2, hie, List.length_map]
  by_cases hemp : (t.rows.filter (fun r => !(r.rating == ""))).isEmpty = true
  · rw [if_pos hemp, if_pos (Or.inl hemp)]
  · rw [if_neg hemp]
    show (t.rows.length,
        if ((t.rows.filter (fun r => !(r.rating == ""))).map
              (fun r => castAsReal r.rating)).sum /
            ((t.rows.filter (fun r => !(r.rating == ""))).length : ℚ) = 0 then (0 : ℚ)
        else round2 (((t.rows.filter (fun r => !(r.rating == ""))).map
              (fun r => castAsReal r.rating)).sum /
            ((t.rows.filter (fun r => !(r.rating == ""))).length : ℚ))) = _
    by_cases hz : ((t.rows.filter (fun r => !(r.rating == ""))).map
          (fun r => castAsReal r.rating)).sum /
        ((t.rows.filter (fun r => !(r.rating == ""))).length : ℚ) = 0
    · rw [if_pos hz, if_pos (Or.inr hz)]
    · rw [if_neg hz, if_neg (by tauto : ¬((t.rows.filter
          (fun r => !(r.rating == ""))).isEmpty = true ∨
          ((t.rows.filter (fun r => !(r.rating == ""))).map
              (fun r => castAsReal r.rating)).sum /
            ((t.rows.filter (fun r => !(r.rating == ""))).length : ℚ) = 0))]

end MovieDB
